import Mathlib

/-!
Formal model of the Recorder Button Krita plugin
(`src/recorder_button/recorder_button.py`).

The development shallowly embeds the plugin's host-independent logic:

* the icon desaturation filter `_create_desaturated_icon` (including a
  faithful model of Python's IEEE-754 binary64 arithmetic for the luma
  and opacity expressions, since `int(0.299*r + 0.587*g + 0.114*b)`
  evaluated in doubles differs from exact rational truncation on some
  byte triples, e.g. on (1,1,1));
* the one-time icon preparation `_prepare_icons`;
* the popup placement computation of `_show_docker_at_cursor`;
* the auto-close event filter `DockerAutoCloseFilter`
  (`eventFilter`, `_close_docker`, `deactivate`);
* the watcher installation `_install_auto_close_filter`;
* the recording-flag mirroring `_on_button_toggled`, `_sync_all_actions`
  and `_update_action_icon`.

Host objects (Qt widgets, actions, screens) are represented by explicit
records of exactly the attributes the plugin reads and writes.
-/

namespace RecorderButton

/-! ### Nonnegative dyadic numbers and binary64 rounding

Python evaluates `0.299 * r + 0.587 * g + 0.114 * b` and
`alpha * opacity` in IEEE-754 binary64, each literal and each operation
correctly rounded to nearest, ties to even.  All values occurring in the
plugin are nonnegative and well inside the normal double range, so a
double is modelled as a nonnegative dyadic rational: a natural mantissa
`n` together with a binary exponent `e`, standing for `n * 2 ^ e`. -/

/-- A nonnegative dyadic rational `n * 2 ^ e`. -/
structure Dy where
  n : ℕ
  e : ℤ
  deriving DecidableEq, Repr

/-- Round the fraction `a / b` (with `b > 0`) to the nearest natural
number, ties to even. -/
def roundHalfEvenFrac (a b : ℕ) : ℕ :=
  let q := a / b
  let r := a % b
  if 2 * r < b then q
  else if b < 2 * r then q + 1
  else if q % 2 = 0 then q else q + 1

/-- Scale the fraction `a / b` by powers of two (tracking the scaling in
`t`) until it lies in the binary64 mantissa range `[2^52, 2^53)`.  The
fuel bound 4400 covers every exponent the binary64 format can reach. -/
def normFrac : ℕ → ℕ → ℕ → ℤ → (ℕ × ℕ × ℤ)
  | 0, a, b, t => (a, b, t)
  | fuel + 1, a, b, t =>
    if a < 2 ^ 52 * b then normFrac fuel (2 * a) b (t + 1)
    else if 2 ^ 53 * b ≤ a then normFrac fuel a (2 * b) (t - 1)
    else (a, b, t)

/-- Round the nonnegative rational `num / den` to the nearest binary64
value (53-bit mantissa, round to nearest, ties to even): the rounding a
Python float literal such as `0.299` undergoes. -/
def flQ (num den : ℕ) : Dy :=
  if num = 0 then ⟨0, 0⟩
  else
    let p := normFrac 4400 num den 0
    ⟨roundHalfEvenFrac p.1 p.2.1, -p.2.2⟩

/-- Round an exact dyadic intermediate result back to binary64: the
rounding every Python float addition and multiplication performs. -/
def flD (d : Dy) : Dy :=
  if 0 ≤ d.e then flQ (d.n * 2 ^ d.e.toNat) 1
  else flQ d.n (2 ^ (-d.e).toNat)

/-- Exact product of a dyadic with a natural number (a pixel channel). -/
def dyMulNat (d : Dy) (k : ℕ) : Dy := ⟨d.n * k, d.e⟩

/-- Exact sum of two dyadics, aligning exponents. -/
def dyAdd (d1 d2 : Dy) : Dy :=
  if d2.e ≤ d1.e then ⟨d1.n * 2 ^ (d1.e - d2.e).toNat + d2.n, d2.e⟩
  else ⟨d2.n * 2 ^ (d2.e - d1.e).toNat + d1.n, d1.e⟩

/-- Truncate a nonnegative dyadic to a natural number: Python's `int()`
on a nonnegative float. -/
def floorDy (d : Dy) : ℕ :=
  if 0 ≤ d.e then d.n * 2 ^ d.e.toNat else d.n / 2 ^ (-d.e).toNat

/-- The binary64 value of the Python literal `0.299`. -/
def c299 : Dy := flQ 299 1000

/-- The binary64 value of the Python literal `0.587`. -/
def c587 : Dy := flQ 587 1000

/-- The binary64 value of the Python literal `0.114`. -/
def c114 : Dy := flQ 114 1000

/-- The binary64 value of the Python literal `0.30`: the `opacity`
argument `_prepare_icons` passes to `_create_desaturated_icon`. -/
def c03 : Dy := flQ 3 10

/-! ### Pixels, images and the desaturation filter -/

/-- An RGBA pixel as read and written through `QColor` channel
accessors: four integers in `0..255`. -/
structure Pixel where
  red : ℕ
  green : ℕ
  blue : ℕ
  alpha : ℕ
  deriving DecidableEq, Repr

/-- An image as a list of rows of pixels, the abstraction of `QImage`
at the `pixelColor`/`setPixelColor` level. -/
abbrev Image := List (List Pixel)

/-- Pixel lookup: `img.pixelColor(x, y)` when in range. -/
def getPixel (img : Image) (x y : ℕ) : Option Pixel :=
  img[y]?.bind fun row => row[x]?

/-- The luma `int(0.299 * pixel.red() + 0.587 * pixel.green() +
0.114 * pixel.blue())` of `_create_desaturated_icon`, line 283,
evaluated exactly as Python does: left-associated binary64 products and
sums, then truncation. -/
def grayOf (p : Pixel) : ℕ :=
  floorDy (flD (dyAdd
    (flD (dyAdd (flD (dyMulNat c299 p.red)) (flD (dyMulNat c587 p.green))))
    (flD (dyMulNat c114 p.blue))))

/-- The per-pixel body of the loop in `_create_desaturated_icon`
(lines 276-290): fully transparent pixels are skipped, every other pixel
becomes `(gray, gray, gray, int(alpha * opacity))`. -/
def processPixel (opacity : Dy) (p : Pixel) : Pixel :=
  if p.alpha = 0 then p
  else
    let gray := grayOf p
    let newAlpha := floorDy (flD (dyMulNat opacity p.alpha))
    ⟨gray, gray, gray, newAlpha⟩

/-- The double pixel loop of `_create_desaturated_icon` over one
rasterized image (lines 274-290): every pixel is rewritten in place. -/
def desaturateImage (opacity : Dy) (img : Image) : Image :=
  img.map fun row => row.map (processPixel opacity)

/-- A `QIcon` as the list of pixmaps added to it; `QIcon.isNull()` holds
exactly for the empty list. -/
abbrev IconPixmaps := List Image

/-- The fixed list of target sizes of `_create_desaturated_icon`,
line 259. -/
def targetSizes : List ℕ := [16, 22, 24, 32, 48, 64, 128]

/-- The body of `_create_desaturated_icon` (lines 256-298).
`rasterize s` is the result of `icon.pixmap(QSize(s, s)).toImage()`:
`none` when the pixmap or the image is null (both `continue` branches),
otherwise the rasterized image.  `QPixmap.fromImage` is modelled as
succeeding on an image obtained from a successful rasterization.  The
processed icon is returned unless no size produced a pixmap, in which
case the original icon is returned. -/
def createDesaturatedIcon (icon : IconPixmaps) (opacity : Dy)
    (rasterize : ℕ → Option Image) : IconPixmaps :=
  let newIcon := targetSizes.foldl
    (fun acc ts =>
      match rasterize ts with
      | none => acc
      | some img => acc ++ [desaturateImage opacity img])
    []
  if newIcon = [] then icon else newIcon

/-! ### Icon preparation (`_prepare_icons`, lines 217-243) -/

/-- The class-level icon cache of `RecorderButtonExtension`:
`_icon_recording`, `_icon_not_recording` (both initially `None`) and
the `_icons_prepared` flag. -/
structure IconsState where
  iconRecording : Option IconPixmaps
  iconNotRecording : Option IconPixmaps
  iconsPrepared : Bool
  deriving DecidableEq, Repr

/-- The class-level cache at process start. -/
def initialIconsState : IconsState := ⟨none, none, false⟩

/-- The host inputs `_prepare_icons` consults: `originalIcon` is
`Krita.instance().icon("media-record")`, with `none` modelling a null
icon, and `rasterize` is its per-size rasterization. -/
structure IconEnv where
  originalIcon : Option IconPixmaps
  rasterize : ℕ → Option Image

/-- `_prepare_icons` (lines 217-243).  Returns the updated cache and the
number of `_create_desaturated_icon` invocations performed.  When the
original icon is null both cache slots are set to empty icons and the
routine returns before setting `_icons_prepared` (line 236); otherwise
the full icon is stored, the dimmed icon is computed once at opacity
`0.30`, and `_icons_prepared` is set. -/
def prepareIcons (env : IconEnv) (s : IconsState) : IconsState × ℕ :=
  if s.iconsPrepared then (s, 0)
  else
    match env.originalIcon with
    | none => (⟨some [], some [], s.iconsPrepared⟩, 0)
    | some orig =>
        (⟨some orig, some (createDesaturatedIcon orig c03 env.rasterize), true⟩, 1)

/-! ### Popup placement (`_show_docker_at_cursor`, lines 687-725) -/

/-- A screen point (`QPoint`). -/
structure Pt where
  x : ℤ
  y : ℤ
  deriving DecidableEq, Repr

/-- A screen's available geometry (`QRect`) through the accessors the
plugin uses: `left()`, `top()`, `right()`, `bottom()`.  In Qt,
`right = left + width - 1` and `bottom = top + height - 1`. -/
structure ScreenGeom where
  left : ℤ
  top : ℤ
  right : ℤ
  bottom : ℤ
  deriving DecidableEq, Repr

/-- The placement computation of `_show_docker_at_cursor`
(lines 704-725): start at the cursor, move left/up when the docker
would overflow the right/bottom edge, then clamp to the left/top
edge. -/
def computePlacement (cursorPos : Pt) (dockerWidth dockerHeight : ℤ)
    (g : ScreenGeom) : Pt :=
  let x0 := cursorPos.x
  let x1 := if x0 + dockerWidth > g.right then g.right - dockerWidth else x0
  let x2 := if x1 < g.left then g.left else x1
  let y0 := cursorPos.y
  let y1 := if y0 + dockerHeight > g.bottom then g.bottom - dockerHeight else y0
  let y2 := if y1 < g.top then g.top else y1
  ⟨x2, y2⟩

/-- The position `_show_docker_at_cursor` passes to `docker.move`
(lines 692-725): the available geometry of the screen at the cursor
(with the primary screen already substituted when `screenAt` fails) is
used for clamping; with no screen at all the raw cursor position is
used. -/
def showDockerPlacement (cursorPos : Pt) (w h : ℤ)
    (screenGeom : Option ScreenGeom) : Pt :=
  match screenGeom with
  | none => cursorPos
  | some g => computePlacement cursorPos w h g

/-! ### The auto-close watcher (`DockerAutoCloseFilter`, lines 23-132) -/

/-- The mouse button of a `QEvent.MouseButtonPress`. -/
inductive MouseButton
  | left
  | middle
  | right
  deriving DecidableEq, Repr

/-- The event kinds `DockerAutoCloseFilter.eventFilter` distinguishes:
`QEvent.MouseButtonPress` (with its button), `QEvent.TabletPress`, and
everything else. -/
inductive QtEventKind
  | mousePress (button : MouseButton)
  | tabletPress
  | otherEvent
  deriving DecidableEq, Repr

/-- One `DockerAutoCloseFilter` session together with the docker state
it observes and mutates: `active` is `_active`, `installedOnApp` records
whether the filter is installed on the `QApplication`, `dockerVisible`
is `docker.isVisible()`, `pendingCloses` counts `QTimer.singleShot(0,
self._close_docker)` callbacks scheduled but not yet fired, and
`hideCount` / `removedNotifyCount` count docker hides and
`_on_auto_close_filter_removed` notifications performed by this
watcher. -/
structure WatcherState where
  active : Bool
  installedOnApp : Bool
  dockerVisible : Bool
  pendingCloses : ℕ
  hideCount : ℕ
  removedNotifyCount : ℕ
  deriving DecidableEq, Repr

/-- A freshly installed watcher observing a visible docker: the state
right after `_install_auto_close_filter` ran for a docker that
`_show_docker_at_cursor` just showed. -/
def initialWatcherState : WatcherState := ⟨true, true, true, 0, 0, 0⟩

/-- `DockerAutoCloseFilter.eventFilter` (lines 93-132), as a function of
the event kind and of whether `QApplication.widgetAt(QCursor.pos())`
resolves (per `_is_click_inside_docker`) to the docker or one of its
descendants.  Returns the new state and the boolean returned to Qt
(`True` would consume the event).  Scheduling `_close_docker` via
`QTimer.singleShot(0, ...)` increments `pendingCloses`. -/
def eventFilterStep (s : WatcherState) (ev : QtEventKind)
    (cursorWidgetInsideDocker : Bool) : WatcherState × Bool :=
  if !s.active then (s, false)
  else if !s.dockerVisible then
    ({ s with active := false, installedOnApp := false,
              removedNotifyCount := s.removedNotifyCount + 1 }, false)
  else
    match ev with
    | .mousePress b =>
        if b = MouseButton.left then
          if !cursorWidgetInsideDocker then
            ({ s with pendingCloses := s.pendingCloses + 1 }, false)
          else (s, false)
        else (s, false)
    | .tabletPress =>
        if !cursorWidgetInsideDocker then
          ({ s with pendingCloses := s.pendingCloses + 1 }, false)
        else (s, false)
    | .otherEvent => (s, false)

/-- `DockerAutoCloseFilter._close_docker` (lines 69-91): a no-op when
already inactive; otherwise deactivates, uninstalls from the
application, hides the docker when it is still visible (via the toggle
action or `hide()`, both leaving it hidden), and notifies the
extension. -/
def closeDocker (s : WatcherState) : WatcherState :=
  if !s.active then s
  else
    let s1 := { s with active := false, installedOnApp := false }
    let s2 :=
      if s1.dockerVisible then
        { s1 with dockerVisible := false, hideCount := s1.hideCount + 1 }
      else s1
    { s2 with removedNotifyCount := s2.removedNotifyCount + 1 }

/-- `DockerAutoCloseFilter.deactivate` (lines 38-40). -/
def deactivateWatcher (s : WatcherState) : WatcherState :=
  { s with active := false }

/-- The events a watcher session can experience on the single dispatch
thread: an inspected event, a previously scheduled `_close_docker`
callback firing, an explicit `deactivate`, and the host hiding or
showing the docker by other means. -/
inductive WatcherOp
  | deliverEvent (ev : QtEventKind) (insideDocker : Bool)
  | firePendingClose
  | deactivate
  | hostHidesDocker
  | hostShowsDocker
  deriving DecidableEq, Repr

/-- Apply one dispatch-thread event to a watcher session. -/
def applyOp (s : WatcherState) (op : WatcherOp) : WatcherState :=
  match op with
  | .deliverEvent ev inside => (eventFilterStep s ev inside).1
  | .firePendingClose =>
      if s.pendingCloses = 0 then s
      else closeDocker { s with pendingCloses := s.pendingCloses - 1 }
  | .deactivate => deactivateWatcher s
  | .hostHidesDocker => { s with dockerVisible := false }
  | .hostShowsDocker => { s with dockerVisible := true }

/-- Run a whole sequence of dispatch-thread events. -/
def runOps (s : WatcherState) (ops : List WatcherOp) : WatcherState :=
  ops.foldl applyOp s

/-! ### Watcher installation (`_install_auto_close_filter`, lines 410-429) -/

/-- A `DockerAutoCloseFilter` object installed on the `QApplication`,
identified by an object id, with its `_active` flag. -/
structure InstalledFilter where
  fid : ℕ
  active : Bool
  deriving DecidableEq, Repr

/-- The extension's watcher bookkeeping: `_auto_close_filter` (the id of
the current filter, if any) and the list of auto-close filters currently
installed on the `QApplication` by this extension, in installation
order. -/
structure ExtensionFilterState where
  autoCloseFilter : Option ℕ
  appFilters : List InstalledFilter
  deriving DecidableEq, Repr

/-- `QApplication.removeEventFilter`: the filter with the given id is no
longer installed. -/
def removeAppFilter (l : List InstalledFilter) (fid : ℕ) :
    List InstalledFilter :=
  l.filter fun w => w.fid != fid

/-- `DockerAutoCloseFilter.deactivate` applied to the installed filter
with the given id. -/
def deactivateAppFilter (l : List InstalledFilter) (fid : ℕ) :
    List InstalledFilter :=
  l.map fun w => if w.fid = fid then { w with active := false } else w

/-- `_install_auto_close_filter` (lines 410-429): any existing filter is
first deactivated, removed from the application and dropped from
`_auto_close_filter`; then a fresh filter (with `_active = True`) is
created, installed on the application and remembered. -/
def installAutoCloseFilter (s : ExtensionFilterState) (newId : ℕ) :
    ExtensionFilterState :=
  let s1 :=
    match s.autoCloseFilter with
    | none => s
    | some old =>
        { autoCloseFilter := none,
          appFilters := removeAppFilter (deactivateAppFilter s.appFilters old) old }
  { autoCloseFilter := some newId,
    appFilters := s1.appFilters ++ [⟨newId, true⟩] }

/-- The session invariant relating the extension's
`_auto_close_filter` reference to the application-installed filters:
no filter installed when the reference is empty, exactly the referenced
filter (still active) otherwise. -/
def sessionInv (s : ExtensionFilterState) : Prop :=
  s.appFilters =
    match s.autoCloseFilter with
    | none => []
    | some f => [⟨f, true⟩]

/-! ### Local toggle forwarding (`_on_button_toggled`, lines 342-358) -/

/-- `_on_button_toggled` (lines 342-358).  `knownRecorderFlag` is the
checked state of `self._recorder_action` when that reference is already
set (`none` when the reference is `None`); `lookedUpFlag` is the checked
state of the action a fresh `app.action("recorder_record_toggle")`
lookup would return (`none` when the lookup fails); `checked` is the new
state of the local button.  Returns the recorder flag afterwards and the
number of `setChecked` calls performed on the recorder action. -/
def onButtonToggled (knownRecorderFlag lookedUpFlag : Option Bool)
    (checked : Bool) : Option Bool × ℕ :=
  let flag :=
    match knownRecorderFlag with
    | some f => some f
    | none => lookedUpFlag
  match flag with
  | none => (none, 0)
  | some f => if f ≠ checked then (some checked, 1) else (some f, 0)

/-! ### Mirrored-control synchronization
(`_sync_all_actions`, lines 367-384, and `_update_action_icon`,
lines 386-404) -/

/-- The icon a mirrored control currently displays. -/
inductive IconChoice
  | fullColor
  | dimmed
  | unset
  deriving DecidableEq, Repr

/-- A mirrored toolbar `QAction` through the attributes the plugin
touches: `isChecked`, `signalsBlocked`, its icon and its tooltip. -/
structure ActionCtl where
  checkedState : Bool
  signalsBlocked : Bool
  icon : IconChoice
  tooltip : String
  deriving DecidableEq, Repr

/-- A record of one `setChecked` call on a mirrored control: the value
written and whether the control's signals were blocked at that
moment. -/
structure CheckWrite where
  blockedDuringWrite : Bool
  value : Bool
  deriving DecidableEq, Repr

/-- `_update_action_icon` (lines 386-404): the icon is replaced only
when the corresponding cache slot is non-`None`
(`iconRecAvail` / `iconNotRecAvail`); the tooltip is always updated. -/
def updateActionIcon (iconRecAvail iconNotRecAvail : Bool)
    (a : ActionCtl) (isRecording : Bool) : ActionCtl :=
  if isRecording then
    let a1 := if iconRecAvail then { a with icon := IconChoice.fullColor } else a
    { a1 with tooltip := "Recording... Click to stop\nRight-click: Open/hide docker" }
  else
    let a1 := if iconNotRecAvail then { a with icon := IconChoice.dimmed } else a
    { a1 with tooltip := "Click to start recording\nRight-click: Open/hide docker" }

/-- The loop body of `_sync_all_actions` for one non-`None` action
(lines 378-384): block signals, write the checked state, unblock
signals, update the icon.  Also returns the record of the `setChecked`
call. -/
def syncOneAction (iconRecAvail iconNotRecAvail : Bool)
    (isRecording : Bool) (a : ActionCtl) : ActionCtl × CheckWrite :=
  let a1 := { a with signalsBlocked := true }
  let w : CheckWrite := ⟨a1.signalsBlocked, isRecording⟩
  let a2 := { a1 with checkedState := isRecording }
  let a3 := { a2 with signalsBlocked := false }
  (updateActionIcon iconRecAvail iconNotRecAvail a3 isRecording, w)

/-- `_sync_all_actions` (lines 367-384) over `self._actions`, where a
`none` entry models a `None` action skipped by the loop.  Returns the
updated action list and the `setChecked` call records, in order. -/
def syncAllActions (iconRecAvail iconNotRecAvail : Bool)
    (isRecording : Bool) (acts : List (Option ActionCtl)) :
    List (Option ActionCtl) × List CheckWrite :=
  (acts.map fun a? =>
      a?.map fun a => (syncOneAction iconRecAvail iconNotRecAvail isRecording a).1,
   acts.filterMap fun a? =>
      a?.map fun a => (syncOneAction iconRecAvail iconNotRecAvail isRecording a).2)

/-! ### Helper lemmas about the desaturation filter -/

/-- The accumulating loop of `_create_desaturated_icon` collects, in
order, the processed images of the sizes that rasterized. -/
lemma foldl_collect (opacity : Dy) (rasterize : ℕ → Option Image) :
    ∀ (l : List ℕ) (acc : List Image),
      l.foldl
        (fun acc ts =>
          match rasterize ts with
          | none => acc
          | some img => acc ++ [desaturateImage opacity img])
        acc
      = acc ++ (l.filterMap rasterize).map (desaturateImage opacity) := by
  intro l
  induction l with
  | nil => intro acc; simp
  | cons hd tl ih =>
      intro acc
      cases h : rasterize hd <;>
        simp [List.filterMap_cons, h, ih, List.append_assoc]

/-- Closed form of `_create_desaturated_icon`: the original icon when no
size rasterized, otherwise the processed images of the sizes that
did. -/
lemma createDesaturatedIcon_eq (icon : IconPixmaps) (opacity : Dy)
    (rasterize : ℕ → Option Image) :
    createDesaturatedIcon icon opacity rasterize =
      if targetSizes.filterMap rasterize = [] then icon
      else (targetSizes.filterMap rasterize).map (desaturateImage opacity) := by
  unfold createDesaturatedIcon
  rw [foldl_collect]
  simp only [List.nil_append]
  rcases h : targetSizes.filterMap rasterize with _ | ⟨a, l⟩ <;> simp [h]

/-- Each size that rasterizes contributes its processed image to the
returned icon. -/
lemma mem_createDesaturatedIcon (icon : IconPixmaps) (opacity : Dy)
    (rasterize : ℕ → Option Image) (s : ℕ) (img : Image)
    (hs : s ∈ targetSizes) (hr : rasterize s = some img) :
    desaturateImage opacity img ∈ createDesaturatedIcon icon opacity rasterize := by
  have hmem : img ∈ targetSizes.filterMap rasterize :=
    List.mem_filterMap.mpr ⟨s, hs, hr⟩
  rw [createDesaturatedIcon_eq, if_neg (by simpa using List.ne_nil_of_mem hmem)]
  exact List.mem_map_of_mem _ hmem

/-- Pixel access commutes with the per-pixel loop. -/
lemma getPixel_desaturate (opacity : Dy) (img : Image) (x y : ℕ) :
    getPixel (desaturateImage opacity img) x y =
      (getPixel img x y).map (processPixel opacity) := by
  unfold getPixel desaturateImage
  rw [List.getElem?_map]
  cases h : img[y]? <;> simp [List.getElem?_map]

/-- An opaque (nonzero-alpha) pixel becomes gray at reduced alpha. -/
lemma processPixel_of_alpha_ne (opacity : Dy) (p : Pixel)
    (h : p.alpha ≠ 0) :
    processPixel opacity p =
      ⟨grayOf p, grayOf p, grayOf p, floorDy (flD (dyMulNat opacity p.alpha))⟩ := by
  simp [processPixel, h]

/-- A fully transparent pixel is left untouched. -/
lemma processPixel_of_alpha_eq (opacity : Dy) (p : Pixel)
    (h : p.alpha = 0) : processPixel opacity p = p := by
  simp [processPixel, h]

/-! ### Claims about the desaturation filter -/

/-- Claim C2: `_create_desaturated_icon`, applied at each target size in
{16, 22, 24, 32, 48, 64, 128}, replaces every pixel with non-zero alpha
by `(luma, luma, luma, alpha * 0.30)` with
`luma = 0.299*R + 0.587*G + 0.114*B`, both luma and the new alpha
integer-truncated (the arithmetic being the source's binary64
arithmetic, modelled by `grayOf`, `flD`, `dyMulNat` and `floorDy`), and
leaves every zero-alpha pixel byte-identical to the input. -/
theorem desaturation_algorithm_c2 :
    targetSizes = [16, 22, 24, 32, 48, 64, 128] ∧
    (∀ (rasterize : ℕ → Option Image) (icon : IconPixmaps) (s : ℕ) (img : Image),
        s ∈ targetSizes → rasterize s = some img →
        desaturateImage c03 img ∈ createDesaturatedIcon icon c03 rasterize) ∧
    (∀ (img : Image) (x y : ℕ) (p : Pixel),
        getPixel img x y = some p → p.alpha ≠ 0 →
        getPixel (desaturateImage c03 img) x y =
          some ⟨grayOf p, grayOf p, grayOf p, floorDy (flD (dyMulNat c03 p.alpha))⟩) ∧
    (∀ (img : Image) (x y : ℕ) (p : Pixel),
        getPixel img x y = some p → p.alpha = 0 →
        getPixel (desaturateImage c03 img) x y = some p) := by
  refine ⟨rfl, ?_, ?_, ?_⟩
  · intro rasterize icon s img hs hr
    exact mem_createDesaturatedIcon icon c03 rasterize s img hs hr
  · intro img x y p hp ha
    rw [getPixel_desaturate, hp, Option.map_some', processPixel_of_alpha_ne c03 p ha]
  · intro img x y p hp ha
    rw [getPixel_desaturate, hp, Option.map_some', processPixel_of_alpha_eq c03 p ha]

/-- Witness for C2: a red pixel at size 16 becomes gray 76 at alpha 76;
the pixel (0,0,5,6) becomes (0,0,0,1); a transparent pixel is
unchanged. -/
theorem desaturation_algorithm_c2_witness :
    desaturateImage c03 [[⟨255, 0, 0, 255⟩]] ∈
      createDesaturatedIcon [] c03
        (fun s => if s = 16 then some [[⟨255, 0, 0, 255⟩]] else none) ∧
    getPixel (desaturateImage c03 [[⟨0, 0, 5, 6⟩]]) 0 0 = some ⟨0, 0, 0, 1⟩ ∧
    getPixel (desaturateImage c03 [[⟨7, 8, 9, 0⟩]]) 0 0 = some ⟨7, 8, 9, 0⟩ := by
  refine ⟨desaturation_algorithm_c2.2.1 _ [] 16 _ (by decide) rfl, ?_, ?_⟩
  · exact (desaturation_algorithm_c2.2.2.1 [[⟨0, 0, 5, 6⟩]] 0 0 ⟨0, 0, 5, 6⟩ rfl
      (by decide)).trans (by decide)
  · exact desaturation_algorithm_c2.2.2.2 [[⟨7, 8, 9, 0⟩]] 0 0 ⟨7, 8, 9, 0⟩ rfl rfl

/-- The rounding asserted by claim C1's spec sentence, stated from the
spec's words for comparison with the code: round to nearest,
`round(num / den) = floor(num / den + 1 / 2)`. -/
def roundNearestFrac (num den : ℕ) : ℕ := (2 * num + den) / (2 * den)

/-- Counterexample to claim C1 as stated: for the input pixel
(0, 0, 5, 6) the code produces alpha `int(6 * 0.30) = 1`, not
`round(6 * 0.30) = 2` (and gray `int(0.57) = 0`, not
`round(0.57) = 1`): `_create_desaturated_icon` truncates, it does not
round. -/
theorem dimmed_pixel_rounding_c1_counterexample :
    ¬ (∀ (img : Image) (x y : ℕ) (p q : Pixel),
        getPixel img x y = some p → p.alpha ≠ 0 →
        getPixel (desaturateImage c03 img) x y = some q →
        q.alpha = roundNearestFrac (p.alpha * 30) 100 ∧
        q.red = roundNearestFrac (299 * p.red + 587 * p.green + 114 * p.blue) 1000) := by
  intro hcl
  have h := hcl [[⟨0, 0, 5, 6⟩]] 0 0 ⟨0, 0, 5, 6⟩ ⟨0, 0, 0, 1⟩ rfl (by decide) (by decide)
  exact absurd h.1 (by decide)

/-- Claim C1 (amended): for every pixel of the rasterized base icon with
non-zero alpha, the dimmed icon produced by `_create_desaturated_icon`
with opacity 0.30 has alpha equal to the integer-truncation of
`inputAlpha * 0.30` and `R = G = B` equal to the integer-truncation of
`0.299*R + 0.587*G + 0.114*B` of the input pixel (truncation instead of
the claimed rounding; arithmetic as in the source, in binary64). -/
theorem dimmed_pixel_values_c1 :
    ∀ (rasterize : ℕ → Option Image) (icon : IconPixmaps) (s : ℕ)
      (img : Image) (x y : ℕ) (p : Pixel),
      s ∈ targetSizes → rasterize s = some img →
      getPixel img x y = some p → p.alpha ≠ 0 →
      ∃ outImg, outImg ∈ createDesaturatedIcon icon c03 rasterize ∧
        ∃ q, getPixel outImg x y = some q ∧
          q.alpha = floorDy (flD (dyMulNat c03 p.alpha)) ∧
          q.red = grayOf p ∧ q.red = q.green ∧ q.green = q.blue := by
  intro rasterize icon s img x y p hs hr hp ha
  refine ⟨desaturateImage c03 img,
    mem_createDesaturatedIcon icon c03 rasterize s img hs hr,
    ⟨grayOf p, grayOf p, grayOf p, floorDy (flD (dyMulNat c03 p.alpha))⟩,
    ?_, rfl, rfl, rfl, rfl⟩
  rw [getPixel_desaturate, hp, Option.map_some', processPixel_of_alpha_ne c03 p ha]

/-- Witness for the amended C1 at the pixel (10, 20, 30, 200) rasterized
at size 32. -/
theorem dimmed_pixel_values_c1_witness :
    ∃ outImg, outImg ∈ createDesaturatedIcon [] c03
        (fun s => if s = 32 then some [[⟨10, 20, 30, 200⟩]] else none) ∧
      ∃ q, getPixel outImg 0 0 = some q ∧
        q.alpha = floorDy (flD (dyMulNat c03 200)) ∧
        q.red = grayOf ⟨10, 20, 30, 200⟩ ∧ q.red = q.green ∧ q.green = q.blue :=
  dimmed_pixel_values_c1 _ [] 32 [[⟨10, 20, 30, 200⟩]] 0 0 ⟨10, 20, 30, 200⟩
    (by decide) rfl rfl (by decide)

/-- Claim C9: a target size whose rasterization fails is skipped without
affecting the other sizes (the result is exactly the in-order
desaturation of the sizes that rasterized), and when every target size
fails the returned dimmed icon is the original base icon unchanged. -/
theorem rasterization_failure_c9 :
    ∀ (rasterize : ℕ → Option Image) (icon : IconPixmaps) (opacity : Dy),
      ((∀ s ∈ targetSizes, rasterize s = none) →
        createDesaturatedIcon icon opacity rasterize = icon) ∧
      createDesaturatedIcon icon opacity rasterize =
        (if targetSizes.filterMap rasterize = [] then icon
         else (targetSizes.filterMap rasterize).map (desaturateImage opacity)) := by
  intro rasterize icon opacity
  refine ⟨?_, createDesaturatedIcon_eq icon opacity rasterize⟩
  intro hnone
  rw [createDesaturatedIcon_eq, if_pos (List.filterMap_eq_nil_iff.mpr hnone)]

/-- Witness for C9: with a rasterizer that fails on every size, a
concrete base icon is returned unchanged. -/
theorem rasterization_failure_c9_witness :
    createDesaturatedIcon [[[⟨1, 2, 3, 4⟩]]] c03 (fun _ => none) = [[[⟨1, 2, 3, 4⟩]]] :=
  (rasterization_failure_c9 (fun _ => none) [[[⟨1, 2, 3, 4⟩]]] c03).1 (fun _ _ => rfl)

/-! ### Claim about popup placement -/

/-- Claim C3: with the cursor at the screen's bottom-right corner and a
panel of size (W, H), the placement passed to `docker.move` is
`(screenRight - W, screenBottom - H)`, not the raw cursor position; and
in general the placement is the cursor position clamped (to
`[left, right - W] x [top, bottom - H]`) so that the panel rectangle
stays within the available geometry of the screen containing the
cursor. -/
theorem popup_placement_c3 :
    ∀ (g : ScreenGeom) (w h : ℤ),
      0 < w → 0 < h → g.left ≤ g.right - w → g.top ≤ g.bottom - h →
      (computePlacement ⟨g.right, g.bottom⟩ w h g = ⟨g.right - w, g.bottom - h⟩ ∧
       computePlacement ⟨g.right, g.bottom⟩ w h g ≠ ⟨g.right, g.bottom⟩) ∧
      (∀ c : Pt,
        (computePlacement c w h g).x = max g.left (min c.x (g.right - w)) ∧
        (computePlacement c w h g).y = max g.top (min c.y (g.bottom - h)) ∧
        g.left ≤ (computePlacement c w h g).x ∧
        (computePlacement c w h g).x + w - 1 ≤ g.right ∧
        g.top ≤ (computePlacement c w h g).y ∧
        (computePlacement c w h g).y + h - 1 ≤ g.bottom) ∧
      (∀ c : Pt, showDockerPlacement c w h (some g) = computePlacement c w h g ∧
        showDockerPlacement c w h none = c) := by
  intro g w h hw hh hfx hfy
  refine ⟨⟨?_, ?_⟩, ?_, fun c => ⟨rfl, rfl⟩⟩
  · simp only [computePlacement, Pt.mk.injEq]
    constructor <;> split_ifs <;> omega
  · simp only [computePlacement, Pt.mk.injEq, ne_eq, not_and]
    split_ifs <;> omega
  · intro c
    simp only [computePlacement, max_def, min_def]
    refine ⟨?_, ?_, ?_, ?_, ?_, ?_⟩ <;> split_ifs <;> omega

/-- Witness for C3 on a 1920x1080 available geometry with the cursor at
its bottom-right corner and a 300x200 docker. -/
theorem popup_placement_c3_witness :
    computePlacement ⟨1919, 1079⟩ 300 200 ⟨0, 0, 1919, 1079⟩ = ⟨1619, 879⟩ ∧
    computePlacement ⟨1919, 1079⟩ 300 200 ⟨0, 0, 1919, 1079⟩ ≠ ⟨1919, 1079⟩ :=
  (popup_placement_c3 ⟨0, 0, 1919, 1079⟩ 300 200 (by decide) (by decide)
    (by decide) (by decide)).1

/-! ### Claim about icon preparation -/

/-- Claim C8: icon preparation is idempotent and the dimmed icon is
computed at most once: one call to `_prepare_icons` performs at most one
`_create_desaturated_icon` invocation, and after any call a further call
leaves the icon cache unchanged and performs no further
`_create_desaturated_icon` invocation. -/
theorem prepare_icons_c8 :
    ∀ (env : IconEnv) (s : IconsState),
      (prepareIcons env (prepareIcons env s).1).1 = (prepareIcons env s).1 ∧
      (prepareIcons env (prepareIcons env s).1).2 = 0 ∧
      (prepareIcons env s).2 ≤ 1 := by
  intro env s
  by_cases hp : s.iconsPrepared
  · simp [prepareIcons, hp]
  · cases ho : env.originalIcon <;>
      simp [prepareIcons, hp, ho]

/-! ### Claims about the auto-close watcher -/

/-- Session invariant of a watcher: while still active it has performed
no hide and no removal notification, and in any case it performs each at
most once. -/
def watcherInv (s : WatcherState) : Prop :=
  (s.active = true → s.hideCount = 0 ∧ s.removedNotifyCount = 0) ∧
  s.hideCount ≤ 1 ∧ s.removedNotifyCount ≤ 1

/-- `_close_docker` preserves the session invariant. -/
lemma closeDocker_inv (s : WatcherState) (h : watcherInv s) :
    watcherInv (closeDocker s) := by
  obtain ⟨h1, h2, h3⟩ := h
  by_cases hA : s.active
  · obtain ⟨hh, hn⟩ := h1 hA
    cases hV : s.dockerVisible <;>
      simp [closeDocker, watcherInv, hA, hV, hh, hn]
  · have hA' : s.active = false := by simpa using hA
    simp only [closeDocker, hA', Bool.not_false, if_pos]
    exact ⟨h1, h2, h3⟩

/-- `eventFilter` preserves the session invariant. -/
lemma eventFilterStep_inv (s : WatcherState) (ev : QtEventKind)
    (inside : Bool) (h : watcherInv s) :
    watcherInv (eventFilterStep s ev inside).1 := by
  obtain ⟨h1, h2, h3⟩ := h
  by_cases hA : s.active
  · by_cases hV : s.dockerVisible
    · obtain ⟨hh, hn⟩ := h1 hA
      cases ev with
      | mousePress b =>
          cases b <;> cases inside <;>
            simp [eventFilterStep, watcherInv, hA, hV, hh, hn, h2, h3]
      | tabletPress =>
          cases inside <;>
            simp [eventFilterStep, watcherInv, hA, hV, hh, hn, h2, h3]
      | otherEvent =>
          simp only [eventFilterStep, hA, hV]
          exact ⟨h1, h2, h3⟩
    · have hV' : s.dockerVisible = false := by simpa using hV
      obtain ⟨hh, hn⟩ := h1 hA
      simp [eventFilterStep, watcherInv, hA, hV', hh, hn]
  · have hA' : s.active = false := by simpa using hA
    simp only [eventFilterStep, hA', Bool.not_false, if_pos]
    exact ⟨h1, h2, h3⟩

/-- Every dispatch-thread event preserves the session invariant. -/
lemma applyOp_inv (s : WatcherState) (op : WatcherOp) (h : watcherInv s) :
    watcherInv (applyOp s op) := by
  obtain ⟨h1, h2, h3⟩ := h
  cases op with
  | deliverEvent ev inside => exact eventFilterStep_inv s ev inside ⟨h1, h2, h3⟩
  | firePendingClose =>
      by_cases hp : s.pendingCloses = 0
      · simp only [applyOp, hp, if_pos]
        exact ⟨h1, h2, h3⟩
      · simp only [applyOp, hp, if_neg, ite_false]
        exact closeDocker_inv _ ⟨h1, h2, h3⟩
  | deactivate =>
      refine ⟨?_, h2, h3⟩
      intro hcontra
      simp [applyOp, deactivateWatcher] at hcontra
  | hostHidesDocker => exact ⟨h1, h2, h3⟩
  | hostShowsDocker => exact ⟨h1, h2, h3⟩

/-- The session invariant holds after any event sequence. -/
lemma runOps_inv (ops : List WatcherOp) :
    ∀ s : WatcherState, watcherInv s → watcherInv (runOps s ops) := by
  induction ops with
  | nil => intro s h; exact h
  | cons op tl ih =>
      intro s h
      have : runOps s (op :: tl) = runOps (applyOp s op) tl := by
        simp [runOps]
      rw [this]
      exact ih _ (applyOp_inv s op h)

/-- Claim C10: once the watcher is inactive its close routine is a
no-op, and over any sequence of dispatch-thread events on a fresh
watcher session the docker hide and the extension's filter-removed
notification each happen at most once, even when several deferred
closes were scheduled. -/
theorem close_idempotence_c10 :
    (∀ s : WatcherState, s.active = false → closeDocker s = s) ∧
    (∀ ops : List WatcherOp,
      (runOps initialWatcherState ops).hideCount ≤ 1 ∧
      (runOps initialWatcherState ops).removedNotifyCount ≤ 1) := by
  constructor
  · intro s hs
    simp [closeDocker, hs]
  · intro ops
    have h := runOps_inv ops initialWatcherState (by exact ⟨fun _ => ⟨rfl, rfl⟩, by decide, by decide⟩)
    exact ⟨h.2.1, h.2.2⟩

/-- Witness for C10: a deactivated watcher is untouched by the close
routine, and a session with two outside presses and two fired deferred
closes still hides and notifies at most once. -/
theorem close_idempotence_c10_witness :
    closeDocker ⟨false, false, true, 0, 1, 1⟩ = ⟨false, false, true, 0, 1, 1⟩ ∧
    (runOps initialWatcherState
      [WatcherOp.deliverEvent (QtEventKind.mousePress MouseButton.left) false,
       WatcherOp.deliverEvent QtEventKind.tabletPress false,
       WatcherOp.firePendingClose, WatcherOp.firePendingClose]).hideCount ≤ 1 ∧
    (runOps initialWatcherState
      [WatcherOp.deliverEvent (QtEventKind.mousePress MouseButton.left) false,
       WatcherOp.deliverEvent QtEventKind.tabletPress false,
       WatcherOp.firePendingClose, WatcherOp.firePendingClose]).removedNotifyCount ≤ 1 :=
  ⟨close_idempotence_c10.1 _ rfl, (close_idempotence_c10.2 _).1,
    (close_idempotence_c10.2 _).2⟩

/-- Counterexample to claim C4 as stated: not every pointer-button-press
outside the panel schedules a close.  A right-button press with the
cursor widget outside the docker schedules no deferred close, because
`eventFilter` only reacts to `Qt.LeftButton` mouse presses. -/
theorem watcher_event_response_c4_counterexample :
    ¬ (∀ (s : WatcherState) (ev : QtEventKind) (inside : Bool),
        s.active = true → s.dockerVisible = true →
        ((∃ b, ev = QtEventKind.mousePress b) ∨ ev = QtEventKind.tabletPress) →
        ((eventFilterStep s ev inside).1.pendingCloses = s.pendingCloses + 1 ↔
          inside = false)) := by
  intro hcl
  have h := hcl initialWatcherState (QtEventKind.mousePress MouseButton.right) false
    rfl rfl (Or.inl ⟨MouseButton.right, rfl⟩)
  exact absurd (h.mpr rfl) (by decide)

/-- Claim C4 (amended): the watcher never consumes any event it
inspects; while it is active and the panel visible, every left-button
pointer press and every pen tap schedules exactly one deferred panel
closure if and only if the widget at the cursor position is not the
panel or one of its descendants (the closure is deferred: the filter
itself hides nothing and deactivates nothing); presses of other mouse
buttons leave the watcher state unchanged. -/
theorem watcher_event_response_c4 :
    (∀ (s : WatcherState) (ev : QtEventKind) (inside : Bool),
        (eventFilterStep s ev inside).2 = false) ∧
    (∀ (s : WatcherState) (ev : QtEventKind) (inside : Bool),
        s.active = true → s.dockerVisible = true →
        ((ev = QtEventKind.mousePress MouseButton.left ∨ ev = QtEventKind.tabletPress) →
          (eventFilterStep s ev inside).1.pendingCloses =
            s.pendingCloses + (if inside then 0 else 1) ∧
          (eventFilterStep s ev inside).1.hideCount = s.hideCount ∧
          (eventFilterStep s ev inside).1.dockerVisible = s.dockerVisible ∧
          (eventFilterStep s ev inside).1.active = s.active) ∧
        (∀ b, b ≠ MouseButton.left →
          (eventFilterStep s (QtEventKind.mousePress b) inside).1 = s)) := by
  constructor
  · intro s ev inside
    obtain ⟨a, inst, v, pc, hcnt, ncnt⟩ := s
    cases a <;> cases v <;>
      cases ev with
      | mousePress b => cases b <;> cases inside <;> rfl
      | tabletPress => cases inside <;> rfl
      | otherEvent => rfl
  · intro s ev inside hA hV
    constructor
    · rintro (rfl | rfl) <;> cases inside <;>
        simp [eventFilterStep, hA, hV]
    · intro b hb
      cases b
      · exact absurd rfl hb
      · simp [eventFilterStep, hA, hV]
      · simp [eventFilterStep, hA, hV]

/-- Witness for the amended C4: on a fresh session, an outside
left-button press is not consumed and schedules one close; an inside pen
tap schedules none; a right-button press changes nothing. -/
theorem watcher_event_response_c4_witness :
    (eventFilterStep initialWatcherState (QtEventKind.mousePress MouseButton.left) false).2 = false ∧
    (eventFilterStep initialWatcherState (QtEventKind.mousePress MouseButton.left) false).1.pendingCloses =
      initialWatcherState.pendingCloses + 1 ∧
    (eventFilterStep initialWatcherState QtEventKind.tabletPress true).1.pendingCloses =
      initialWatcherState.pendingCloses ∧
    (eventFilterStep initialWatcherState (QtEventKind.mousePress MouseButton.right) false).1 =
      initialWatcherState := by
  refine ⟨watcher_event_response_c4.1 initialWatcherState _ false, ?_, ?_, ?_⟩
  · exact ((watcher_event_response_c4.2 initialWatcherState _ false rfl rfl).1
      (Or.inl rfl)).1.trans (by decide)
  · exact ((watcher_event_response_c4.2 initialWatcherState _ true rfl rfl).1
      (Or.inr rfl)).1.trans (by decide)
  · exact (watcher_event_response_c4.2 initialWatcherState
      (QtEventKind.mousePress MouseButton.right) false rfl rfl).2
      MouseButton.right (by decide)

/-! ### Claim about watcher installation -/

/-- Claim C5: at most one outside-interaction watcher is active at any
time.  Installing a watcher for a new popup session first deactivates
and removes any previously installed watcher, so from any state
satisfying the session invariant (in particular while a watcher from a
previous session is still active) exactly one watcher — the new, active
one — remains installed afterwards, and the invariant is preserved. -/
theorem single_watcher_c5 :
    ∀ (s : ExtensionFilterState) (newId : ℕ), sessionInv s →
      (installAutoCloseFilter s newId).appFilters = [⟨newId, true⟩] ∧
      (installAutoCloseFilter s newId).autoCloseFilter = some newId ∧
      (installAutoCloseFilter s newId).appFilters.length = 1 ∧
      sessionInv (installAutoCloseFilter s newId) := by
  intro s newId hs
  unfold sessionInv at hs
  cases hOld : s.autoCloseFilter with
  | none =>
      rw [hOld] at hs
      simp [installAutoCloseFilter, hOld, hs, sessionInv]
  | some old =>
      rw [hOld] at hs
      simp [installAutoCloseFilter, hOld, hs, sessionInv,
        removeAppFilter, deactivateAppFilter, List.filter]

/-- Witness for C5: after opening a second popup session (filter id 2)
while the first session's watcher (filter id 1) is still installed and
active, exactly the new watcher is installed. -/
theorem single_watcher_c5_witness :
    (installAutoCloseFilter (installAutoCloseFilter ⟨none, []⟩ 1) 2).appFilters =
      [⟨2, true⟩] ∧
    (installAutoCloseFilter (installAutoCloseFilter ⟨none, []⟩ 1) 2).appFilters.length = 1 := by
  have h := single_watcher_c5 (installAutoCloseFilter ⟨none, []⟩ 1) 2 rfl
  exact ⟨h.1, h.2.2.1⟩

/-! ### Claim about local toggle forwarding -/

/-- Claim C6: when a local toggle sets a mirrored control to `x` and the
external recording flag already equals `x`, no write to the external
flag is performed; the `setChecked` write occurs exactly when the values
differ.  The flag is either already bound (`known = some f`) or found by
the in-handler lookup (`known = none`, `lookedUp = some f`). -/
theorem toggle_forwarding_c6 :
    ∀ (known lookedUp : Option Bool) (f x : Bool),
      (known = some f ∨ (known = none ∧ lookedUp = some f)) →
      ((f = x → (onButtonToggled known lookedUp x).2 = 0 ∧
                (onButtonToggled known lookedUp x).1 = some f) ∧
       (f ≠ x → (onButtonToggled known lookedUp x).2 = 1 ∧
                (onButtonToggled known lookedUp x).1 = some x)) := by
  intro known lookedUp f x hk
  rcases hk with rfl | ⟨rfl, rfl⟩ <;>
    (constructor <;> intro hfx <;> simp [onButtonToggled, hfx])

/-- Witness for C6: toggling to `true` with the flag already `true`
performs zero external writes; with the flag `false` it performs one. -/
theorem toggle_forwarding_c6_witness :
    (onButtonToggled (some true) none true).2 = 0 ∧
    (onButtonToggled (some false) none true).2 = 1 :=
  ⟨((toggle_forwarding_c6 (some true) none true true (Or.inl rfl)).1 rfl).1,
   ((toggle_forwarding_c6 (some false) none false true (Or.inl rfl)).2 (by decide)).1⟩

/-! ### Claim about mirrored-control synchronization -/

/-- The effect of the `_sync_all_actions` loop body on one action when
both icon cache slots are available. -/
lemma syncOneAction_spec (flag : Bool) (a : ActionCtl) :
    ((syncOneAction true true flag a).1.checkedState = flag ∧
     (syncOneAction true true flag a).1.signalsBlocked = false ∧
     (syncOneAction true true flag a).1.icon =
       (if flag then IconChoice.fullColor else IconChoice.dimmed)) ∧
    ((syncOneAction true true flag a).2.blockedDuringWrite = true ∧
     (syncOneAction true true flag a).2.value = flag) := by
  cases flag <;> simp [syncOneAction, updateActionIcon]

/-- Claim C7: on an external recording-flag change, `_sync_all_actions`
updates all registered mirrored controls with their change-notifications
suppressed during the `setChecked` write (every write record carries
`blockedDuringWrite = true`), and afterwards every control satisfies
`checked = flag` with signals unblocked again and icon full when the
flag is true, dimmed when it is false (icon cache slots available). -/
theorem sync_mirrored_controls_c7 :
    ∀ (isRecording : Bool) (acts : List (Option ActionCtl)),
      (∀ w ∈ (syncAllActions true true isRecording acts).2,
          w.blockedDuringWrite = true ∧ w.value = isRecording) ∧
      (∀ a? ∈ (syncAllActions true true isRecording acts).1, ∀ a, a? = some a →
          a.checkedState = isRecording ∧
          a.signalsBlocked = false ∧
          a.icon = (if isRecording then IconChoice.fullColor else IconChoice.dimmed)) := by
  intro flag acts
  constructor
  · intro w hw
    simp only [syncAllActions] at hw
    obtain ⟨a?, ha, hw'⟩ := List.mem_filterMap.mp hw
    cases a? with
    | none => simp at hw'
    | some a =>
        simp only [Option.map_some', Option.some.injEq] at hw'
        rw [← hw']
        exact (syncOneAction_spec flag a).2
  · intro a? ha a haeq
    simp only [syncAllActions] at ha
    obtain ⟨b?, hb, hmap⟩ := List.mem_map.mp ha
    cases b? with
    | none => rw [← hmap] at haeq; simp at haeq
    | some b =>
        rw [← hmap] at haeq
        simp only [Option.map_some', Option.some.injEq] at haeq
        rw [← haeq]
        exact (syncOneAction_spec flag b).1

/-- Witness for C7: syncing one concrete unchecked, dimmed control to a
recording flag of `true` yields a checked control with the full icon and
a signals-blocked write record. -/
theorem sync_mirrored_controls_c7_witness :
    (syncOneAction true true true ⟨false, false, IconChoice.dimmed, "t"⟩).1.checkedState = true ∧
    (syncOneAction true true true ⟨false, false, IconChoice.dimmed, "t"⟩).1.icon =
      IconChoice.fullColor ∧
    (syncOneAction true true true ⟨false, false, IconChoice.dimmed, "t"⟩).2.blockedDuringWrite =
      true := by
  have h := sync_mirrored_controls_c7 true [some ⟨false, false, IconChoice.dimmed, "t"⟩]
  have hmem1 : some (syncOneAction true true true ⟨false, false, IconChoice.dimmed, "t"⟩).1 ∈
      (syncAllActions true true true [some ⟨false, false, IconChoice.dimmed, "t"⟩]).1 := by
    simp [syncAllActions]
  have hmem2 : (syncOneAction true true true ⟨false, false, IconChoice.dimmed, "t"⟩).2 ∈
      (syncAllActions true true true [some ⟨false, false, IconChoice.dimmed, "t"⟩]).2 := by
    simp [syncAllActions]
  have hact := h.2 _ hmem1 _ rfl
  have hwr := h.1 _ hmem2
  exact ⟨hact.1, hact.2.2.trans rfl, hwr.1⟩

end RecorderButton
